import Mathlib

/-!
Verification of the intent-dispatch and confirmation workflow of the
businesschatfronted repository.

Two historical variants of the app exist in the sources:
* `ClientApp` embeds `src/unnamed/part_000` — client-side classification with
  install / incident-status / generic-ticket branches and a pending
  install-version confirmation.
* `ServerApp` embeds `src/src/App.jsx` — the backend-driven analytics variant
  with payload normalisation (`buildChartJsSpec`) and static-chart fallback.

Strings model JS strings; JS-truthiness of optional strings is made explicit
(`strTruthy`, `jsOr`).  Backend collaborators are passed in as oracles
(`Except`-valued functions), so one dispatch is a pure function of the query,
the prior UI state and the oracle.  JSON numbers are modelled as rationals.
-/

/-- A JS word character, as used by the regex metacharacter \b: [A-Za-z0-9_]. -/
def isWordChar (c : Char) : Bool := c.isAlpha || c.isDigit || c = '_'

/-- Lower-casing, modelling JS String.prototype.toLowerCase on ASCII text
(character by character). -/
def toLowerStr (s : String) : String := String.mk (s.toList.map Char.toLower)

/-- Whitespace trimming at both ends, modelling JS String.prototype.trim. -/
def trimStr (s : String) : String :=
  String.mk
    (((s.toList.dropWhile Char.isWhitespace).reverse.dropWhile Char.isWhitespace).reverse)

/-- Does `sub` occur as a contiguous run inside the list? -/
def includesL (sub : List Char) : List Char → Bool
  | [] => sub.isEmpty
  | c :: rest => sub.isPrefixOf (c :: rest) || includesL sub rest

/-- Substring containment, modelling JS String.prototype.includes. -/
def includes (s sub : String) : Bool := includesL sub.toList s.toList

/-- JS truthiness of an optional string: undefined/absent and the empty string
are falsy, every other string is truthy. -/
def strTruthy : Option String → Bool
  | none => false
  | some s => s ≠ ""

/-- The JS idiom `x || d` on an optional string `x`: yields `d` when `x` is
absent or empty, else the string itself. -/
def jsOr (o : Option String) (d : String) : String :=
  match o with
  | some s => if s = "" then d else s
  | none => d

/-- The JS idiom `a || b` between two optional strings, keeping optionality. -/
def jsOrElse (a b : Option String) : Option String :=
  if strTruthy a then a else b

/-- Case-insensitive literal match of the pattern (given lowercase) against the
head of the input; returns the remaining input on success. -/
def matchCI : List Char → List Char → Option (List Char)
  | [], cs => some cs
  | _ :: _, [] => none
  | p :: ps, c :: cs => if c.toLower = p then matchCI ps cs else none

/-- Does the rest of the input start at a \b boundary (end of input or a
non-word character)? -/
def boundaryAfter : List Char → Bool
  | [] => true
  | c :: _ => !isWordChar c

/-- Try to match INC\d+\b (case-insensitively) at the head of the input,
returning the upper-cased matched token, as in `incMatch[0].toUpperCase()`.
The digits of the token are unchanged by upper-casing. -/
def matchIncHere (cs : List Char) : Option String :=
  match cs with
  | c1 :: c2 :: c3 :: rest =>
    if (c1 = 'i' || c1 = 'I') && (c2 = 'n' || c2 = 'N') && (c3 = 'c' || c3 = 'C') then
      let digits := rest.takeWhile Char.isDigit
      let after := rest.drop digits.length
      if digits.length > 0 && boundaryAfter after then
        some ("INC" ++ String.mk digits)
      else none
    else none
  | _ => none

/-- Left-to-right scan for `query.match(/\bINC\d+\b/i)`: at every position that
follows a non-word character (or the start), try to match the token.  The flag
records whether the previous character was a word character. -/
def findIncAux : List Char → Bool → Option String
  | [], _ => none
  | c :: rest, prevWord =>
    match if prevWord then none else matchIncHere (c :: rest) with
    | some tok => some tok
    | none => findIncAux rest (isWordChar c)

/-- The upper-cased incident token of the first match of /\bINC\d+\b/i in the
query, if any. -/
def strFindInc (s : String) : Option String := findIncAux s.toList false

/-- Does one of the alternatives install | setup | set up match
case-insensitively at the head of the input, followed by a \b boundary? -/
def matchKeywordHere (cs : List Char) : Bool :=
  ["install", "setup", "set up"].any fun w =>
    match matchCI w.toList cs with
    | some rest => boundaryAfter rest
    | none => false

/-- Scan for /\b(install|setup|set up)\b/i, mirroring `findIncAux`. -/
def hasInstallKeywordAux : List Char → Bool → Bool
  | [], _ => false
  | c :: rest, prevWord =>
    (if prevWord then false else matchKeywordHere (c :: rest))
      || hasInstallKeywordAux rest (isWordChar c)

/-- `/\b(install|setup|set up)\b/i.test(query)`. -/
def hasInstallKeyword (s : String) : Bool := hasInstallKeywordAux s.toList false

/-- One chat turn `{ role, content }` of the transcript. -/
structure ChatTurn where
  role : String
  content : String
deriving DecidableEq, Repr

namespace ClientApp

/-- The SYSTEM_RULES preamble of the client-side variant (part_000). -/
def SYSTEM_RULES : String :=
  "Title: Conversational Sales Insights with Northwind DB.\n\nRules:\n- If the user asks to \x27install\x27 or\x27 \x27setup\x27 software, ALWAYS call request_install first.\n- If that returns multiple versions, show them and wait for the user\x27s choice.\n- If exactly one match, proceed (backend may create the ticket).\n- If no match, backend creates a ticket automatically.\n- If the user asks about an incident (INC...), call show_status.\n- If the user asks about sales data, business metrics, or requests a chart, show the appropriate visualization.\n"

/-- The two seed turns written by `loadHistory` on first run and by
`clearSession`: the system rules and the assistant greeting. -/
def freshMessages : List ChatTurn :=
  [⟨"system", SYSTEM_RULES⟩,
   ⟨"assistant", "Hi! I\x27m your IT assistant. How can I help you today?"⟩]

/-- Response of the show_status collaborator: `{ incident_status?: text }`. -/
structure StatusResp where
  incident_status : Option String
deriving DecidableEq, Repr

/-- Response of the request_install collaborator:
`{ incident?, options?, message? }`. -/
structure InstallResp where
  incident : Option String
  options : Option (List String)
  message : Option String
deriving DecidableEq, Repr

/-- Response of the create_ticket collaborator: `{ incident: text }`. -/
structure TicketResp where
  incident : String
deriving DecidableEq, Repr

/-- The three backend collaborators of the client-side variant, as oracles.
A failing call carries the readable detail string the code embeds
(`e?.response?.data || e.message`). -/
structure Backend where
  showStatus : String → Except String StatusResp
  requestInstall : String → Option String → Except String InstallResp
  createTicket : String → Except String TicketResp

/-- The pending install confirmation `{ user_query, options }`. -/
structure PendingConf where
  user_query : String
  options : List String
deriving DecidableEq, Repr

/-- Result of one run of `decideAndCallTool`: the returned reply together with
the values the branch stored into the `pending` and `showChart` state slots. -/
structure DispatchResult where
  reply : String
  pending : Option PendingConf
  showChart : Option String
deriving DecidableEq, Repr

/-- `checkForChartRequest` of part_000: lower-cases the query and tests
substrings; quarters are detected by the substrings q1..q4. -/
def checkForChartRequest (query : String) : Option String :=
  let lowerQuery := toLowerStr query
  if includes lowerQuery "sales" || includes lowerQuery "revenue" then
    if includes lowerQuery "month" || includes lowerQuery "monthly" then
      some "monthly"
    else if includes lowerQuery "product" || includes lowerQuery "item" then
      some "products"
    else if includes lowerQuery "quarter" || includes lowerQuery "q1"
        || includes lowerQuery "q2" || includes lowerQuery "q3"
        || includes lowerQuery "q4" then
      some "quarterly"
    else if includes lowerQuery "chart" || includes lowerQuery "graph"
        || includes lowerQuery "visual" then
      some "monthly"
    else none
  else none

/-- Deterministic rendering standing for `JSON.stringify(data, null, 2)` on an
install response.  No claim inspects this text; it only needs to be a fixed
function of the response. -/
def stringifyInstall (d : InstallResp) : String :=
  "\x7b incident: " ++ (d.incident.getD "null")
    ++ ", options: [" ++ String.intercalate ", " (d.options.getD [])
    ++ "], message: " ++ (d.message.getD "null") ++ " \x7d"

/-- `decideAndCallTool` of part_000, as a pure function of the query, the
prior `pending` slot and the backend oracle.  Branch order is that of the
source: chart heuristic, then incident token, then install keyword, then
generic ticket.  Branches that never call `setPending` (the chart branch and
the status-failure branch) leave `pending0` in place. -/
def decideAndCallTool (b : Backend) (query : String)
    (pending0 : Option PendingConf) : DispatchResult :=
  match checkForChartRequest query with
  | some chartType =>
    { reply := "Here\x27s the " ++ chartType ++ " sales data you requested:"
      pending := pending0
      showChart := some chartType }
  | none =>
    match strFindInc query with
    | some inc =>
      match b.showStatus inc with
      | .ok data =>
        { reply := "Incident " ++ inc ++ " status: "
            ++ data.incident_status.getD "Unknown"
          pending := none
          showChart := none }
      | .error e =>
        { reply := "Error while checking status: " ++ e
          pending := pending0
          showChart := none }
    | none =>
      if hasInstallKeyword query then
        match b.requestInstall query none with
        | .ok data =>
          if strTruthy data.incident then
            { reply := stringifyInstall data, pending := none, showChart := none }
          else
            match data.options with
            | some opts =>
              if opts.length > 1 then
                { reply := jsOr data.message "Multiple versions found. Please choose one."
                  pending := some { user_query := query, options := opts }
                  showChart := none }
              else
                { reply := stringifyInstall data, pending := none, showChart := none }
            | none =>
              { reply := stringifyInstall data, pending := none, showChart := none }
        | .error e =>
          { reply := "Error while searching software: " ++ e
            pending := none
            showChart := none }
      else
        match b.createTicket query with
        | .ok data =>
          { reply := "Ticket " ++ data.incident ++ " created for: " ++ query
            pending := none
            showChart := none }
        | .error e =>
          { reply := "Error while creating ticket: " ++ e
            pending := none
            showChart := none }

/-- UI state of the client-side variant: transcript, input box, pending
confirmation, thinking flag and the static-chart slot. -/
structure UIState where
  messages : List ChatTurn
  input : String
  pending : Option PendingConf
  thinking : Bool
  showChart : Option String
deriving DecidableEq, Repr

/-- `handleSend` of part_000, collapsing the awaited dispatch into one step.
Note the source guards only on empty input — there is no `thinking` guard in
this variant. -/
def handleSend (b : Backend) (s : UIState) : UIState :=
  let text := trimStr s.input
  if text = "" then s
  else
    let r := decideAndCallTool b text s.pending
    { messages := s.messages ++ [⟨"user", text⟩, ⟨"assistant", r.reply⟩]
      input := ""
      pending := r.pending
      thinking := false
      showChart := r.showChart }

/-- The Enter-key path: `onKeyDown` invokes `handleSend` unconditionally for
Enter without shift. -/
def sendViaEnter (b : Backend) (s : UIState) : UIState := handleSend b s

/-- The send-button path: the button is disabled while `thinking` or while the
trimmed input is empty, so a click then leaves the state unchanged. -/
def sendViaButton (b : Backend) (s : UIState) : UIState :=
  if s.thinking || trimStr s.input = "" then s else handleSend b s

/-- `confirmVersion(choice)` of part_000.  An empty (falsy) choice returns
immediately.  Otherwise the install lookup is re-invoked with the pending
query and the choice; a success or failure turn is appended and the finally
block always clears `pending`.  When `pending` is null the property access
throws, no turn is appended, and the finally block still clears the slot. -/
def confirmVersion (b : Backend) (choice : String) (s : UIState) : UIState :=
  if choice = "" then s
  else
    match s.pending with
    | some p =>
      match b.requestInstall p.user_query (some choice) with
      | .ok data =>
        { s with
          messages := s.messages ++
            [⟨"assistant", "✅ " ++ jsOr data.message "Ticket created"
                ++ " • Incident: " ++ jsOr data.incident "N/A"⟩]
          pending := none }
      | .error e =>
        { s with
          messages := s.messages ++ [⟨"assistant", "❌ Failed: " ++ e⟩]
          pending := none }
    | none => { s with pending := none }

/-- `clearSession` of part_000: reset the transcript to the two seed turns and
clear the pending confirmation and the chart slot. -/
def clearSession (s : UIState) : UIState :=
  { messages := freshMessages
    input := s.input
    pending := none
    thinking := s.thinking
    showChart := none }

end ClientApp

/-- A JSON scalar, the value space of chart `values` entries in backend
payloads (JSON numbers are finite and modelled as rationals). -/
inductive JVal where
  | jnum (x : ℚ)
  | jstr (s : String)
  | jbool (b : Bool)
  | jnull
deriving DecidableEq, Repr

/-- Digits to a natural number, most significant first. -/
def digitsToNat (ds : List Char) : Nat :=
  ds.foldl (fun a c => a * 10 + (c.toNat - 48)) 0

/-- Model of the JS Number() coercion on strings, for decimal literals:
surrounding whitespace is trimmed, the empty string is 0, an optional sign is
followed by digits with an optional fraction; anything else is NaN (`none`). -/
def strToNum (s : String) : Option ℚ :=
  let t := trimStr s
  if t = "" then some 0
  else
    let cs := t.toList
    let signAndRest : ℚ × List Char :=
      match cs with
      | '-' :: r => (-1, r)
      | '+' :: r => (1, r)
      | _ => (1, cs)
    let sign := signAndRest.1
    let cs1 := signAndRest.2
    let intPart := cs1.takeWhile Char.isDigit
    let rest := cs1.drop intPart.length
    match rest with
    | [] => if intPart.isEmpty then none else some (sign * digitsToNat intPart)
    | '.' :: fr =>
      let fracPart := fr.takeWhile Char.isDigit
      let rest2 := fr.drop fracPart.length
      if rest2.isEmpty && !(intPart.isEmpty && fracPart.isEmpty) then
        some (sign * ((digitsToNat intPart : ℚ)
          + (digitsToNat fracPart : ℚ) / (10 ^ fracPart.length)))
      else none
    | _ => none

/-- The elementwise step of buildChartJsSpec:
`typeof v === "number" ? v : Number(v)` followed by the Number.isFinite test;
`none` is a non-finite result. -/
def coerceNum : JVal → Option ℚ
  | .jnum x => some x
  | .jstr s => strToNum s
  | .jbool b => some (if b then 1 else 0)
  | .jnull => some 0

namespace ServerApp

/-- An inline chart spec of a backend payload:
`{ type?, labels?, values?, title? }`. -/
structure ChartSpecJ where
  type : Option String
  labels : Option (List String)
  values : Option (List JVal)
  title : Option String
deriving DecidableEq, Repr

/-- One table row of a backend payload, a mapping column name to value. -/
def RowJ := List (String × JVal)
deriving DecidableEq, Repr

/-- A backend payload of the /chatbot/query endpoint:
`{ sql?, data?, chart?, summary?, answer?, chart_type? }`. -/
structure Payload where
  sql : Option String
  data : Option (List RowJ)
  chart : Option ChartSpecJ
  summary : Option String
  answer : Option String
  chart_type : Option String
deriving DecidableEq, Repr

/-- The chart configuration produced by `buildChartJsSpec`, restricted to the
fields the claims observe: chart type, labels, the series (dataset) label and
the numeric data series. -/
structure BuiltChart where
  type : String
  labels : List String
  datasetLabel : String
  data : List ℚ
deriving DecidableEq, Repr

/-- `buildChartJsSpec` of App.jsx: the type defaults to bar and is
lower-cased; labels and values default to []; the values are coerced
elementwise to numbers, and if any coercion is non-finite the series becomes
a uniform count of 1 per label with label Count instead of Value. -/
def buildChartJsSpec (spec : ChartSpecJ) : BuiltChart :=
  let type := toLowerStr (jsOr spec.type "bar")
  let labels := spec.labels.getD []
  let rawValues := spec.values.getD []
  let numeric := rawValues.map coerceNum
  let allNums := numeric.all Option.isSome
  let dataValues :=
    if allNums then numeric.map (fun o => o.getD 0)
    else labels.map (fun _ => (1 : ℚ))
  { type := type
    labels := labels
    datasetLabel := if allNums then "Value" else "Count"
    data := dataValues }

/-- Is q1..q4 present as a whole word: `/\bq[1-4]\b/.test(lower)`. -/
def hasQWordAux : List Char → Bool → Bool
  | [], _ => false
  | c :: rest, prevWord =>
    (if prevWord then false else
      match c, rest with
      | 'q', d :: after => (d = '1' || d = '2' || d = '3' || d = '4') && boundaryAfter after
      | _, _ => false)
      || hasQWordAux rest (isWordChar c)

/-- `/\bq[1-4]\b/.test(s)` on an already lower-cased string. -/
def hasQWord (s : String) : Bool := hasQWordAux s.toList false

/-- `checkForChartRequest` of App.jsx; unlike the client-side variant the
quarter cue uses the whole-word test \bq[1-4]\b. -/
def checkForChartRequest (query : String) : Option String :=
  let lower := toLowerStr query
  if includes lower "sales" || includes lower "revenue" then
    if includes lower "month" || includes lower "monthly" then some "monthly"
    else if includes lower "product" || includes lower "item" then some "products"
    else if includes lower "quarter" || hasQWord lower then some "quarterly"
    else if includes lower "chart" || includes lower "graph"
        || includes lower "visual" then some "monthly"
    else none
  else none

/-- Result of one run of the App.jsx `decideAndCallTool`: the reply and the
values stored into the `lastPayload`, `showChart` and `errorMsg` slots. -/
structure SDispatchResult where
  reply : String
  lastPayload : Option Payload
  showChart : Option String
  errorMsg : String
deriving DecidableEq, Repr

/-- `decideAndCallTool` of App.jsx.  `bq` is the queryChatbot oracle, taking
the prompt and the chart-type hint (`inferredChart ?? "auto"`); a successful
call may still carry a null body (`data ?? null`).  On success the reply is
summary/answer with a default, and the static chart slot is chosen by the
precedence backend chart_type, then inline chart (suppress), then inferred
hint.  On failure all payload state is cleared and the error is surfaced. -/
def decideAndCallTool (bq : String → String → Except String (Option Payload))
    (query : String) : SDispatchResult :=
  let inferredChart := checkForChartRequest query
  match bq query (inferredChart.getD "auto") with
  | .ok data =>
    let answer := jsOr (data.bind fun p => jsOrElse p.summary p.answer)
      "Here are your sales insights."
    let backendChartType := data.bind Payload.chart_type
    let sc :=
      if ["monthly", "products", "quarterly"].any (fun t => backendChartType == some t) then
        backendChartType
      else if (data.bind Payload.chart).isSome then none
      else inferredChart
    { reply := answer, lastPayload := data, showChart := sc, errorMsg := "" }
  | .error e =>
    let msg := jsOr (some e) "Unknown error"
    { reply := "Chatbot error: " ++ msg
      lastPayload := none
      showChart := none
      errorMsg := msg }

/-- The SYSTEM_RULES preamble of the App.jsx variant. -/
def SYSTEM_RULES : String :=
  "Title: Conversational Sales Insights with Northwind DB.\n\nRules:\n- If the user asks about sales data, business metrics, or requests a chart, call the /chatbot/query API.\n- Prefer showing a relevant visualization when the user mentions month/quarter/product.\n"

/-- The two seed turns of the App.jsx variant. -/
def freshMessages : List ChatTurn :=
  [⟨"system", SYSTEM_RULES⟩,
   ⟨"assistant", "Hi! I’m your Sales Insights assistant. Ask me about sales, revenue, products, or trends."⟩]

/-- UI state of the App.jsx variant. -/
structure SUIState where
  messages : List ChatTurn
  input : String
  thinking : Bool
  showChart : Option String
  lastPayload : Option Payload
  errorMsg : String
deriving DecidableEq, Repr

/-- `handleSend` of App.jsx: rejects the send when the trimmed input is empty
or a dispatch is already in flight (`if (!text || thinking) return`). -/
def handleSend (bq : String → String → Except String (Option Payload))
    (s : SUIState) : SUIState :=
  let text := trimStr s.input
  if text = "" || s.thinking then s
  else
    let r := decideAndCallTool bq text
    { messages := s.messages ++ [⟨"user", text⟩, ⟨"assistant", r.reply⟩]
      input := ""
      thinking := false
      showChart := r.showChart
      lastPayload := r.lastPayload
      errorMsg := r.errorMsg }

/-- `clearSession` of App.jsx: reset the transcript to the two seed turns and
clear the chart slot, the last payload and the error banner. -/
def clearSession (s : SUIState) : SUIState :=
  { messages := freshMessages
    input := s.input
    thinking := s.thinking
    showChart := none
    lastPayload := none
    errorMsg := "" }

end ServerApp

section Fixtures

/-- Backend whose status lookup always succeeds with status Open; the other
collaborators are unused. -/
def statusOpenBackend : ClientApp.Backend :=
  ⟨fun _ => .ok ⟨some "Open"⟩, fun _ _ => .error "unused", fun _ => .error "unused"⟩

/-- Backend whose status lookup always fails with detail boom. -/
def statusErrBackend : ClientApp.Backend :=
  ⟨fun _ => .error "boom", fun _ _ => .error "unused", fun _ => .error "unused"⟩

/-- Backend whose ticket creation succeeds with incident INC900. -/
def ticketBackend : ClientApp.Backend :=
  ⟨fun _ => .error "unused", fun _ _ => .error "unused", fun _ => .ok ⟨"INC900"⟩⟩

/-- Backend whose install lookup always returns the given response. -/
def installRespBackend (r : ClientApp.InstallResp) : ClientApp.Backend :=
  ⟨fun _ => .error "unused", fun _ _ => .ok r, fun _ => .error "unused"⟩

/-- Install response with two options and an empty prompt message. -/
def emptyMsgResp : ClientApp.InstallResp := ⟨none, some ["1.0", "2.0"], some ""⟩

/-- Install response with two options and a non-empty prompt message. -/
def twoOptsResp : ClientApp.InstallResp :=
  ⟨none, some ["1.0", "2.0"], some "Choose a version"⟩

/-- Install response with a single option and no ticket. -/
def oneOptResp : ClientApp.InstallResp := ⟨none, some ["1.0"], some "only one"⟩

/-- Client-side UI state with a dispatch in flight (thinking) and the text
hello in the input box. -/
def c2EnterState : ClientApp.UIState :=
  ⟨ClientApp.freshMessages, "hello", none, true, none⟩

/-- App.jsx UI state with a dispatch in flight and the text hello typed. -/
def c2ServerState : ServerApp.SUIState :=
  ⟨ServerApp.freshMessages, "hello", true, none, none, ""⟩

/-- An analytics oracle that is never consulted in the scenario using it. -/
def unusedBq : String → String → Except String (Option ServerApp.Payload) :=
  fun _ _ => .error "unused"

/-- Client-side UI state awaiting a two-option install confirmation. -/
def c3State : ClientApp.UIState :=
  ⟨ClientApp.freshMessages, "", some ⟨"install vscode", ["1.0", "2.0"]⟩, false, none⟩

/-- The inline chart spec of the non-numeric fallback example:
pie, labels A and B, values the strings x and y. -/
def pieSpec : ServerApp.ChartSpecJ :=
  ⟨some "pie", some ["A", "B"], some [.jstr "x", .jstr "y"], none⟩

/-- Analytics payload declaring the static chart type products. -/
def productsPayload : ServerApp.Payload :=
  ⟨none, none, none, some "Top products", none, some "products"⟩

/-- Analytics oracle returning `productsPayload`. -/
def productsBq : String → String → Except String (Option ServerApp.Payload) :=
  fun _ _ => .ok (some productsPayload)

end Fixtures

/-! ### Claim theorems -/

/-- Claim C1 (counterexample): the utterance INC1 sales chart contains an
incident token, yet the part_000 dispatcher takes the chart branch, which runs
first — the status lookup (which would answer Open) is not consulted and the
reply is the locally generated chart text, not an incident-status reply. -/
theorem incident_chart_precedence_cex :
    strFindInc "INC1 sales chart" = some "INC1" ∧
    (ClientApp.decideAndCallTool statusOpenBackend "INC1 sales chart" none).reply
      = "Here\x27s the monthly sales data you requested:" ∧
    (ClientApp.decideAndCallTool statusOpenBackend "INC1 sales chart" none).reply
      ≠ "Incident INC1 status: Open" :=
  ⟨rfl, rfl, by decide⟩

/-- Claim C1 (amended): for every utterance that does not match the sales-chart
heuristic and contains a token matching INC\d+ in any case, the part_000
dispatcher classifies it as an incident-status query and invokes the
status-lookup collaborator on the upper-cased id — regardless of any other
content such as install keywords: on success the reply is the status reply and
pending is cleared, on failure the reply is the status error string. -/
theorem incident_token_dispatches_status
    (b : ClientApp.Backend) (q : String) (p0 : Option ClientApp.PendingConf)
    (inc : String)
    (hchart : ClientApp.checkForChartRequest q = none)
    (hinc : strFindInc q = some inc) :
    (∀ d, b.showStatus inc = .ok d →
      ClientApp.decideAndCallTool b q p0 =
        ⟨"Incident " ++ inc ++ " status: " ++ d.incident_status.getD "Unknown",
          none, none⟩) ∧
    (∀ e, b.showStatus inc = .error e →
      ClientApp.decideAndCallTool b q p0 =
        ⟨"Error while checking status: " ++ e, p0, none⟩) := by
  constructor
  · intro d hd
    simp only [ClientApp.decideAndCallTool, hchart, hinc, hd]
  · intro e he
    simp only [ClientApp.decideAndCallTool, hchart, hinc, he]

/-- Claim C1 witness: please install INC123 status contains install keywords
but no sales vocabulary; the dispatch is the status call and replies with the
looked-up status. -/
theorem incident_token_dispatches_status_witness :
    ClientApp.decideAndCallTool statusOpenBackend "please install INC123 status" none =
      ⟨"Incident INC123 status: Open", none, none⟩ :=
  (incident_token_dispatches_status statusOpenBackend "please install INC123 status"
      none "INC123" (by decide) (by decide)).1 ⟨some "Open"⟩ rfl

/-- Claim C2 (code bug evaluated at the failing input): in the client-side
variant a send during thinking is not rejected on the Enter path.  With a
dispatch in flight (thinking set) and hello typed, the Enter key appends the
user turn and the assistant reply of a fresh create-ticket call; the send
button is correctly disabled, and the App.jsx variant rejects the send. -/
theorem thinking_enter_bypass_eval :
    c2EnterState.thinking = true ∧
    (ClientApp.sendViaEnter ticketBackend c2EnterState).messages =
      c2EnterState.messages ++
        [⟨"user", "hello"⟩, ⟨"assistant", "Ticket INC900 created for: hello"⟩] ∧
    ClientApp.sendViaButton ticketBackend c2EnterState = c2EnterState ∧
    ServerApp.handleSend unusedBq c2ServerState = c2ServerState :=
  ⟨rfl, rfl, rfl, rfl⟩

/-- Claim C3: with a pending confirmation alive, confirming any non-empty
choice reaches Idle afterwards — pending is cleared whether the re-invoked
install lookup succeeds or fails (finally-style guarantee). -/
theorem confirm_selection_always_idle
    (b : ClientApp.Backend) (choice : String) (s : ClientApp.UIState)
    (p : ClientApp.PendingConf)
    (hc : choice ≠ "") (_hp : s.pending = some p) :
    (ClientApp.confirmVersion b choice s).pending = none := by
  unfold ClientApp.confirmVersion
  rw [if_neg hc]
  split
  · split <;> rfl
  · rfl

/-- Claim C3 witness: confirming 2.0 against a two-option pending state with a
successful lookup leaves no pending confirmation. -/
theorem confirm_selection_always_idle_witness :
    (ClientApp.confirmVersion (installRespBackend twoOptsResp) "2.0" c3State).pending
      = none :=
  confirm_selection_always_idle (installRespBackend twoOptsResp) "2.0" c3State
    ⟨"install vscode", ["1.0", "2.0"]⟩ (by decide) rfl

/-- Claim C4 (counterexample): an install response with two options, no ticket
and the empty string as its message carries a backend-provided message, yet
the reply is the generic multiple-versions text rather than that (empty)
provided message — data.message || default treats the empty message as
absent. -/
theorem install_empty_message_cex :
    emptyMsgResp.message = some "" ∧
    (installRespBackend emptyMsgResp).requestInstall "install vscode" none
      = .ok emptyMsgResp ∧
    (ClientApp.decideAndCallTool (installRespBackend emptyMsgResp)
        "install vscode" none).pending
      = some ⟨"install vscode", ["1.0", "2.0"]⟩ ∧
    (ClientApp.decideAndCallTool (installRespBackend emptyMsgResp)
        "install vscode" none).reply
      = "Multiple versions found. Please choose one." ∧
    (ClientApp.decideAndCallTool (installRespBackend emptyMsgResp)
        "install vscode" none).reply ≠ "" :=
  ⟨rfl, rfl, rfl, rfl, by decide⟩

/-- Claim C4 (amended): for every install-classified dispatch whose response
carries no (truthy) ticket identifier and an options list of length greater
than 1, pending is set to exactly the dispatched query with the options in
their original order, and the reply is the backend message when that is a
non-empty string, or the generic multiple-versions message when the message is
absent or empty. -/
theorem install_multi_options_sets_pending
    (b : ClientApp.Backend) (q : String) (p0 : Option ClientApp.PendingConf)
    (d : ClientApp.InstallResp) (opts : List String)
    (hchart : ClientApp.checkForChartRequest q = none)
    (hinc : strFindInc q = none)
    (hkw : hasInstallKeyword q = true)
    (hreq : b.requestInstall q none = .ok d)
    (hticket : strTruthy d.incident = false)
    (hopts : d.options = some opts)
    (hlen : opts.length > 1) :
    (ClientApp.decideAndCallTool b q p0).pending = some ⟨q, opts⟩ ∧
    (∀ m, d.message = some m → m ≠ "" →
      (ClientApp.decideAndCallTool b q p0).reply = m) ∧
    ((d.message = none ∨ d.message = some "") →
      (ClientApp.decideAndCallTool b q p0).reply
        = "Multiple versions found. Please choose one.") := by
  have hred : ClientApp.decideAndCallTool b q p0 =
      ⟨jsOr d.message "Multiple versions found. Please choose one.",
        some ⟨q, opts⟩, none⟩ := by
    simp [ClientApp.decideAndCallTool, hchart, hinc, hkw, hreq, hticket, hopts, hlen]
  refine ⟨by rw [hred], ?_, ?_⟩
  · intro m hm hne
    rw [hred]
    simp [jsOr, hm, hne]
  · intro hm
    rcases hm with hm | hm <;> rw [hred] <;> simp [jsOr, hm]

/-- Claim C4 witness: install vscode with a two-option response and the prompt
message Choose a version sets pending to exactly that query and those options
and replies with the provided message. -/
theorem install_multi_options_sets_pending_witness :
    (ClientApp.decideAndCallTool (installRespBackend twoOptsResp)
        "install vscode" none).pending = some ⟨"install vscode", ["1.0", "2.0"]⟩ ∧
    (ClientApp.decideAndCallTool (installRespBackend twoOptsResp)
        "install vscode" none).reply = "Choose a version" :=
  ⟨(install_multi_options_sets_pending (installRespBackend twoOptsResp)
      "install vscode" none twoOptsResp ["1.0", "2.0"] (by decide) (by decide)
      (by decide) rfl (by decide) rfl (by decide)).1,
   (install_multi_options_sets_pending (installRespBackend twoOptsResp)
      "install vscode" none twoOptsResp ["1.0", "2.0"] (by decide) (by decide)
      (by decide) rfl (by decide) rfl (by decide)).2.1 "Choose a version" rfl
      (by decide)⟩

/-- Claim C5: a pending confirmation is never constructed with fewer than two
options — any pending left by a dispatch is the untouched prior value, absent,
or a newly built one with more than one option — and an install-classified
dispatch whose response carries a zero- or one-element options list and no
ticket clears pending, regardless of the message content. -/
theorem pending_min_two_options :
    (∀ (b : ClientApp.Backend) (q : String) (p0 : Option ClientApp.PendingConf),
      (ClientApp.decideAndCallTool b q p0).pending = p0 ∨
      (ClientApp.decideAndCallTool b q p0).pending = none ∨
      ∃ opts : List String, 1 < opts.length ∧
        (ClientApp.decideAndCallTool b q p0).pending = some ⟨q, opts⟩) ∧
    (∀ (b : ClientApp.Backend) (q : String) (p0 : Option ClientApp.PendingConf)
        (d : ClientApp.InstallResp) (opts : List String),
      ClientApp.checkForChartRequest q = none →
      strFindInc q = none →
      hasInstallKeyword q = true →
      b.requestInstall q none = .ok d →
      strTruthy d.incident = false →
      d.options = some opts → opts.length ≤ 1 →
      (ClientApp.decideAndCallTool b q p0).pending = none) := by
  constructor
  · intro b q p0
    unfold ClientApp.decideAndCallTool
    split
    · exact Or.inl rfl
    · split
      · split
        · exact Or.inr (Or.inl rfl)
        · exact Or.inl rfl
      · split
        · split
          · split
            · exact Or.inr (Or.inl rfl)
            · split
              · split
                · refine Or.inr (Or.inr ⟨_, ?_, rfl⟩)
                  assumption
                · exact Or.inr (Or.inl rfl)
              · exact Or.inr (Or.inl rfl)
          · exact Or.inr (Or.inl rfl)
        · split
          · exact Or.inr (Or.inl rfl)
          · exact Or.inr (Or.inl rfl)
  · intro b q p0 d opts hchart hinc hkw hreq ht hopts hlen
    have hnot : ¬ (opts.length > 1) := by omega
    simp [ClientApp.decideAndCallTool, hchart, hinc, hkw, hreq, ht, hopts, hnot]

/-- Claim C5 witness: a single-option response to install python clears an
existing pending confirmation instead of creating one. -/
theorem pending_min_two_options_witness :
    (ClientApp.decideAndCallTool (installRespBackend oneOptResp)
        "install python" (some ⟨"old", ["a", "b"]⟩)).pending = none :=
  pending_min_two_options.2 (installRespBackend oneOptResp) "install python"
    (some ⟨"old", ["a", "b"]⟩) oneOptResp ["1.0"] (by decide) (by decide) (by decide)
    rfl (by decide) rfl (by decide)

/-- Claim C6: when an incident-status dispatch fails, the reply is the status
error string and the pending slot holds exactly the pre-dispatch value — the
status failure branch never touches it. -/
theorem status_failure_preserves_pending
    (b : ClientApp.Backend) (q : String) (p0 : Option ClientApp.PendingConf)
    (inc e : String)
    (hchart : ClientApp.checkForChartRequest q = none)
    (hinc : strFindInc q = some inc)
    (herr : b.showStatus inc = .error e) :
    (ClientApp.decideAndCallTool b q p0).pending = p0 ∧
    (ClientApp.decideAndCallTool b q p0).reply
      = "Error while checking status: " ++ e := by
  have hred : ClientApp.decideAndCallTool b q p0 =
      ⟨"Error while checking status: " ++ e, p0, none⟩ := by
    simp only [ClientApp.decideAndCallTool, hchart, hinc, herr]
  exact ⟨by rw [hred], by rw [hred]⟩

/-- Claim C6 witness: a failing status lookup for INC42 leaves a two-option
pending confirmation exactly in place and replies with the error string. -/
theorem status_failure_preserves_pending_witness :
    (ClientApp.decideAndCallTool statusErrBackend "status of INC42"
        (some ⟨"install vscode", ["1.0", "2.0"]⟩)).pending
      = some ⟨"install vscode", ["1.0", "2.0"]⟩ ∧
    (ClientApp.decideAndCallTool statusErrBackend "status of INC42"
        (some ⟨"install vscode", ["1.0", "2.0"]⟩)).reply
      = "Error while checking status: boom" :=
  status_failure_preserves_pending statusErrBackend "status of INC42"
    (some ⟨"install vscode", ["1.0", "2.0"]⟩) "INC42" "boom" (by decide) (by decide)
    rfl

/-- Claim C7: if any raw chart value fails to coerce to a finite number the
normalizer produces the uniform series 1 per label with series label Count;
when every value coerces, the coerced numbers are used with series label
Value. -/
theorem chart_values_fallback (spec : ServerApp.ChartSpecJ) :
    ((∃ v ∈ spec.values.getD [], coerceNum v = none) →
      (ServerApp.buildChartJsSpec spec).data
          = (spec.labels.getD []).map (fun _ => (1 : ℚ)) ∧
      (ServerApp.buildChartJsSpec spec).datasetLabel = "Count") ∧
    ((∀ v ∈ spec.values.getD [], (coerceNum v).isSome) →
      (ServerApp.buildChartJsSpec spec).data
          = (spec.values.getD []).map (fun v => (coerceNum v).getD 0) ∧
      (ServerApp.buildChartJsSpec spec).datasetLabel = "Value") := by
  constructor
  · rintro ⟨v, hv, hn⟩
    have hall : ((spec.values.getD []).map coerceNum).all Option.isSome = false := by
      rw [Bool.eq_false_iff]
      intro hcl
      rw [List.all_eq_true] at hcl
      have hx := hcl (coerceNum v) (List.mem_map_of_mem _ hv)
      rw [hn] at hx
      simp at hx
    unfold ServerApp.buildChartJsSpec
    simp [hall]
  · intro h
    have hall : ((spec.values.getD []).map coerceNum).all Option.isSome = true := by
      rw [List.all_eq_true]
      intro o ho
      rcases List.mem_map.mp ho with ⟨v, hv, rfl⟩
      exact h v hv
    unfold ServerApp.buildChartJsSpec
    simp [hall, List.map_map, Function.comp]

/-- Claim C7 witness: the pie chart with labels A, B and the non-numeric
values x, y normalizes to the uniform series [1, 1] with series label
Count. -/
theorem chart_values_fallback_witness :
    (ServerApp.buildChartJsSpec pieSpec).data = [1, 1] ∧
    (ServerApp.buildChartJsSpec pieSpec).datasetLabel = "Count" := by
  have h := (chart_values_fallback pieSpec).1 (by decide)
  exact ⟨by rw [h.1]; rfl, h.2⟩

/-- Claim C8: for a successful analytics dispatch the static chart slot is
chosen by precedence: a backend-declared chart type among monthly, products,
quarterly wins; otherwise a backend inline chart spec suppresses the static
fallback; otherwise the locally inferred hint (possibly none) is used. -/
theorem analytics_chart_precedence
    (bq : String → String → Except String (Option ServerApp.Payload))
    (q : String) (p : ServerApp.Payload)
    (hok : bq q ((ServerApp.checkForChartRequest q).getD "auto") = .ok (some p)) :
    (p.chart_type ∈ [some "monthly", some "products", some "quarterly"] →
      (ServerApp.decideAndCallTool bq q).showChart = p.chart_type) ∧
    (p.chart_type ∉ [some "monthly", some "products", some "quarterly"] →
      p.chart.isSome = true →
      (ServerApp.decideAndCallTool bq q).showChart = none) ∧
    (p.chart_type ∉ [some "monthly", some "products", some "quarterly"] →
      p.chart = none →
      (ServerApp.decideAndCallTool bq q).showChart
        = ServerApp.checkForChartRequest q) := by
  have hmem : ∀ (o : Option String),
      ((["monthly", "products", "quarterly"].any fun t => o == some t) = true) ↔
        o ∈ [some "monthly", some "products", some "quarterly"] := by
    intro o
    simp [List.any_eq_true, beq_iff_eq]
  refine ⟨?_, ?_, ?_⟩
  · intro h1
    have hb := (hmem p.chart_type).mpr h1
    simp [ServerApp.decideAndCallTool, hok, Option.bind, hb]
  · intro h1 h2
    simp [ServerApp.decideAndCallTool, hok, Option.bind, h2]
    intro hx
    exfalso
    apply h1
    rcases hx with h | h | h <;> simp [h]
  · intro h1 h2
    simp [ServerApp.decideAndCallTool, hok, Option.bind, h2]
    intro hx
    exfalso
    apply h1
    rcases hx with h | h | h <;> simp [h]

/-- Claim C8 witness: a payload declaring chart_type products makes the
dispatcher select the static products chart. -/
theorem analytics_chart_precedence_witness :
    (ServerApp.decideAndCallTool productsBq "hi").showChart = some "products" :=
  (analytics_chart_precedence productsBq "hi" productsPayload rfl).1 (by decide)

/-- Claim C9: clearing the session resets, in one operation, the transcript to
exactly the two seed turns, the pending confirmation to absent (client-side
variant), the last payload to absent (App.jsx variant), and the static chart
slot to absent in both. -/
theorem clear_session_resets (s : ClientApp.UIState) (t : ServerApp.SUIState) :
    (ClientApp.clearSession s).messages = ClientApp.freshMessages ∧
    ClientApp.freshMessages.length = 2 ∧
    (ClientApp.clearSession s).pending = none ∧
    (ClientApp.clearSession s).showChart = none ∧
    (ServerApp.clearSession t).messages = ServerApp.freshMessages ∧
    ServerApp.freshMessages.length = 2 ∧
    (ServerApp.clearSession t).lastPayload = none ∧
    (ServerApp.clearSession t).showChart = none :=
  ⟨rfl, rfl, rfl, rfl, rfl, rfl, rfl, rfl⟩

/-- Claim C10: an utterance matched by the chart heuristic is answered locally
by the client-side dispatcher: the result is independent of the backend (no
collaborator call is issued), the pending confirmation is left unmodified, and
the reply is the locally generated chart text. -/
theorem chart_heuristic_no_backend_call
    (b1 b2 : ClientApp.Backend) (q : String) (p0 : Option ClientApp.PendingConf)
    (ct : String) (h : ClientApp.checkForChartRequest q = some ct) :
    ClientApp.decideAndCallTool b1 q p0 = ClientApp.decideAndCallTool b2 q p0 ∧
    (ClientApp.decideAndCallTool b1 q p0).pending = p0 ∧
    (ClientApp.decideAndCallTool b1 q p0).reply
      = "Here\x27s the " ++ ct ++ " sales data you requested:" := by
  have h1 : ClientApp.decideAndCallTool b1 q p0 =
      ⟨"Here\x27s the " ++ ct ++ " sales data you requested:", p0, some ct⟩ := by
    simp only [ClientApp.decideAndCallTool, h]
  have h2 : ClientApp.decideAndCallTool b2 q p0 =
      ⟨"Here\x27s the " ++ ct ++ " sales data you requested:", p0, some ct⟩ := by
    simp only [ClientApp.decideAndCallTool, h]
  exact ⟨h1.trans h2.symm, by rw [h1], by rw [h1]⟩

/-- Claim C10 witness: show sales chart is answered by the local chart reply,
identically under two different backends, leaving pending untouched. -/
theorem chart_heuristic_no_backend_call_witness :
    ClientApp.decideAndCallTool statusOpenBackend "show sales chart" none
      = ClientApp.decideAndCallTool statusErrBackend "show sales chart" none ∧
    (ClientApp.decideAndCallTool statusOpenBackend "show sales chart" none).pending
      = none ∧
    (ClientApp.decideAndCallTool statusOpenBackend "show sales chart" none).reply
      = "Here\x27s the monthly sales data you requested:" :=
  chart_heuristic_no_backend_call statusOpenBackend statusErrBackend
    "show sales chart" none "monthly" (by decide)
